import Mathlib

/-!
Verification of the scoring-and-classification engine of the
"3分セカンドキャリア診断" app (`streamlit_app.py`).

The core consists of three pure functions:
* `calc_scores` — per-axis arithmetic means of the answers `Q1`..`Q10`,
  rounded to 2 decimal places (Python `round`, half-to-even);
* `decide_type` — first-match-wins classification into `"S"/"R"/"P"/"I"`;
* `soft_label` — descending threshold table mapping a score to a phrase.

Numbers are modelled as exact rationals (`ℚ`).  A Python dict of answers
becomes a partial map `String → Option ℤ`; a `KeyError q` raised by
`answers["q"]` becomes `Except.error q`.  the Python builtin round rounds
half-to-even at the second decimal; `roundHalfEven` reproduces that exactly
(the float detour of CPython cannot change the result on the values reachable
here: every mean has denominator 1, 2 or 3, so the scaled value is never
within 1/6 of a tie and never at one).
-/

/-- The five axis scores produced by `calc_scores` (the keys of the Python
dict it returns). -/
structure Scores where
  psychological : ℚ
  identity      : ℚ
  workstyle     : ℚ
  constraint    : ℚ
  action        : ℚ
deriving DecidableEq, Repr

/-- Round a rational to the nearest integer, ties to even — the rounding mode
of the Python builtin round. -/
def roundHalfEven (y : ℚ) : ℤ :=
  if y - ⌊y⌋ < 1/2 then ⌊y⌋
  else if 1/2 < y - ⌊y⌋ then ⌊y⌋ + 1
  else if ⌊y⌋ % 2 = 0 then ⌊y⌋ else ⌊y⌋ + 1

/-- Python round(x, 2): round at the second decimal place. -/
def round2 (x : ℚ) : ℚ := (roundHalfEven (x * 100) : ℚ) / 100

/-- The inner helper `mean` of `calc_scores`:
`sum(vals) / len(vals) if vals else 0.0`. -/
def pyMean (vals : List ℚ) : ℚ :=
  if vals = [] then 0 else vals.sum / vals.length

/-- Dict lookup `answers["q"]`: raises `KeyError q` when the key is
absent, then continues with the value. -/
def withAnswer (answers : String → Option ℤ) (q : String)
    (k : ℤ → Except String Scores) : Except String Scores :=
  match answers q with
  | some v => k v
  | none => Except.error q

/-- Function `calc_scores` of `streamlit_app.py` (lines 239–264).  Looks up
`Q1`..`Q10` in the order the Python statements evaluate them, computes the
per-axis means and rounds each to 2 decimal places. -/
def calc_scores (answers : String → Option ℤ) : Except String Scores :=
  withAnswer answers "Q1" fun q1 =>
  withAnswer answers "Q2" fun q2 =>
  withAnswer answers "Q3" fun q3 =>
  withAnswer answers "Q4" fun q4 =>
  withAnswer answers "Q5" fun q5 =>
  withAnswer answers "Q6" fun q6 =>
  withAnswer answers "Q7" fun q7 =>
  withAnswer answers "Q8" fun q8 =>
  withAnswer answers "Q9" fun q9 =>
  withAnswer answers "Q10" fun q10 =>
  let psychological := pyMean [(q1 : ℚ), (q2 : ℚ)]
  let identity      := pyMean [(q3 : ℚ), (q4 : ℚ)]
  let workstyle     := pyMean [(q5 : ℚ), (q6 : ℚ), (q7 : ℚ)]
  let constraint    := ((q8 : ℚ))
  let action        := pyMean [(q9 : ℚ), (q10 : ℚ)]
  Except.ok
    { psychological := round2 psychological
      identity      := round2 identity
      workstyle     := round2 workstyle
      constraint    := round2 constraint
      action        := round2 action }

/-- Function `decide_type` of `streamlit_app.py` (lines 266–289): priority order
I > P > S > R, first satisfied rule wins, `"R"` is the catch-all. -/
def decide_type (s : Scores) : String :=
  if s.workstyle ≥ 4.0 ∧ s.psychological ≥ 3.6 ∧ s.constraint ≥ 3.0 ∧ s.action ≥ 3.6 then
    "I"
  else if s.psychological ≥ 3.2 ∧ s.constraint ≥ 3.0 ∧ 3.0 ≤ s.workstyle ∧ s.workstyle ≤ 4.2 then
    "P"
  else if s.identity ≥ 4.0 ∧ s.workstyle ≥ 3.5 then
    "S"
  else
    "R"

/-- Function `soft_label` of `streamlit_app.py` (lines 292–303): descending
lower-bound-inclusive threshold bands 4.5, 3.5, 2.5, 1.5 and a catch-all. -/
def soft_label (score : ℚ) : String :=
  if score ≥ 4.5 then
    "いま大切にしたい姿が、かなりはっきり見えている状態です。"
  else if score ≥ 3.5 then
    "どのように働きたいか、その方向性が少しずつ形になってきているようです。"
  else if score ≥ 2.5 then
    "これから考えを整理していくことで、新しいヒントがいくつか見えてきそうな段階です。"
  else if score ≥ 1.5 then
    "いまは日々の役割をこなしながら、価値観を少しずつ確かめていくタイミングかもしれません。"
  else
    "無理に動く時期ではなく、少し立ち止まってこれまでを振り返る余白がある状態と言えそうです。"

/-- The "I" rule as the specification words it: workstyle ≥ 4.0 and
psychological ≥ 3.6 and constraint ≥ 3.0 and action ≥ 3.6. -/
def ruleI (s : Scores) : Prop :=
  s.workstyle ≥ 4.0 ∧ s.psychological ≥ 3.6 ∧ s.constraint ≥ 3.0 ∧ s.action ≥ 3.6

/-- The "P" rule as the specification words it: psychological ≥ 3.2 and
constraint ≥ 3.0 and 3.0 ≤ workstyle ≤ 4.2. -/
def ruleP (s : Scores) : Prop :=
  s.psychological ≥ 3.2 ∧ s.constraint ≥ 3.0 ∧ 3.0 ≤ s.workstyle ∧ s.workstyle ≤ 4.2

/-- The "S" rule as the specification words it: identity ≥ 4.0 and
workstyle ≥ 3.5. -/
def ruleS (s : Scores) : Prop :=
  s.identity ≥ 4.0 ∧ s.workstyle ≥ 3.5

instance (s : Scores) : Decidable (ruleI s) :=
  inferInstanceAs (Decidable (s.workstyle ≥ 4.0 ∧ s.psychological ≥ 3.6 ∧ s.constraint ≥ 3.0 ∧ s.action ≥ 3.6))

instance (s : Scores) : Decidable (ruleP s) :=
  inferInstanceAs (Decidable (s.psychological ≥ 3.2 ∧ s.constraint ≥ 3.0 ∧ 3.0 ≤ s.workstyle ∧ s.workstyle ≤ 4.2))

instance (s : Scores) : Decidable (ruleS s) :=
  inferInstanceAs (Decidable (s.identity ≥ 4.0 ∧ s.workstyle ≥ 3.5))

/-- Every axis score lies in the range of the underlying 1..5 answer scale. -/
def validScores (s : Scores) : Prop :=
  (1 ≤ s.psychological ∧ s.psychological ≤ 5) ∧
  (1 ≤ s.identity ∧ s.identity ≤ 5) ∧
  (1 ≤ s.workstyle ∧ s.workstyle ≤ 5) ∧
  (1 ≤ s.constraint ∧ s.constraint ≤ 5) ∧
  (1 ≤ s.action ∧ s.action ≤ 5)

instance (s : Scores) : Decidable (validScores s) :=
  inferInstanceAs (Decidable ((1 ≤ s.psychological ∧ s.psychological ≤ 5) ∧
    (1 ≤ s.identity ∧ s.identity ≤ 5) ∧
    (1 ≤ s.workstyle ∧ s.workstyle ≤ 5) ∧
    (1 ≤ s.constraint ∧ s.constraint ≤ 5) ∧
    (1 ≤ s.action ∧ s.action ≤ 5)))

/-- The label table as the specification words it: (lower bound, label)
pairs sorted descending by threshold. -/
def labelTable : List (ℚ × String) :=
  [(4.5, "いま大切にしたい姿が、かなりはっきり見えている状態です。"),
   (3.5, "どのように働きたいか、その方向性が少しずつ形になってきているようです。"),
   (2.5, "これから考えを整理していくことで、新しいヒントがいくつか見えてきそうな段階です。"),
   (1.5, "いまは日々の役割をこなしながら、価値観を少しずつ確かめていくタイミングかもしれません。")]

/-- The catch-all label below every band of `labelTable`. -/
def bottomLabel : String :=
  "無理に動く時期ではなく、少し立ち止まってこれまでを振り返る余白がある状態と言えそうです。"

/-- Spec-side label mapper: the first band of the descending table whose
lower bound is ≤ the score, the catch-all when none is. -/
def firstBand (score : ℚ) : String :=
  match labelTable.find? (fun b => b.1 ≤ score) with
  | some b => b.2
  | none => bottomLabel

/-- The question ids `Q1`..`Q10`, in the order `calc_scores` evaluates the
dict lookups. -/
def QUESTION_IDS : List String :=
  ["Q1", "Q2", "Q3", "Q4", "Q5", "Q6", "Q7", "Q8", "Q9", "Q10"]

/-- An answer dict with two keys missing (`Q1` and `Q10`), all other
questions answered with the neutral 3. -/
def twoMissing : String → Option ℤ :=
  fun q => if q = "Q1" ∨ q = "Q10" then none else some 3

/-- Spec-side classifier: evaluate the rules in the fixed priority order
I, P, S, first satisfied rule wins, catch-all "R". -/
def decide_type_spec (s : Scores) : String :=
  if ruleI s then "I"
  else if ruleP s then "P"
  else if ruleS s then "S"
  else "R"

/-- The first question id of `QUESTION_IDS` missing from the answer dict —
the lookup that raises first; `""` when the answer set is complete. -/
def firstMissingIn (answers : String → Option ℤ) : String :=
  (QUESTION_IDS.find? (fun r => (answers r).isNone)).getD ""

/-- Complete neutral answer set: every question answered 3. -/
def answersAll3 : String → Option ℤ := fun _ => some 3

/-- Complete out-of-range answer set: every question answered 7. -/
def answersAll7 : String → Option ℤ := fun _ => some 7

/-- Complete answer set with Q7 = 3 and every other question 4; the
workstyle mean 11/3 genuinely changes under rounding (3.67). -/
def answersMixed : String → Option ℤ :=
  fun q => if q = "Q7" then some 3 else some 4

/-- Answer set missing exactly Q10, all other questions answered 3. -/
def oneMissing : String → Option ℤ :=
  fun q => if q = "Q10" then none else some 3

/-! ### Helper lemmas -/

lemma roundHalfEven_abs (y : ℚ) : |(roundHalfEven y : ℚ) - y| ≤ 1/2 := by
  have h0 : ((⌊y⌋ : ℤ) : ℚ) ≤ y := Int.floor_le y
  have h1 : y < (⌊y⌋ : ℚ) + 1 := Int.lt_floor_add_one y
  unfold roundHalfEven
  split_ifs with ha hb hc <;>
    (rw [abs_le]; push_cast; constructor <;> linarith)

lemma round2_abs (x : ℚ) : |round2 x - x| ≤ 1/200 := by
  have h := roundHalfEven_abs (x * 100)
  rw [abs_le] at h
  obtain ⟨hl, hr⟩ := h
  unfold round2
  rw [abs_le]
  constructor <;> linarith

lemma round2_exact (x : ℚ) (k : ℤ) (h : x * 100 = (k : ℚ)) : round2 x = x := by
  have hf : ⌊x * 100⌋ = k := by rw [h]; exact Int.floor_intCast k
  have hlt : x * 100 - ((⌊x * 100⌋ : ℤ) : ℚ) < 1/2 := by rw [hf, h]; simp
  unfold round2 roundHalfEven
  rw [if_pos hlt, hf]
  linarith

lemma round2_bounds (x : ℚ) (hl : 1 ≤ x) (hr : x ≤ 5) :
    1 ≤ round2 x ∧ round2 x ≤ 5 := by
  have h := roundHalfEven_abs (x * 100)
  rw [abs_le] at h
  obtain ⟨h1, h2⟩ := h
  have hz1 : (100 : ℤ) ≤ roundHalfEven (x * 100) := by
    have hq : (99 : ℚ) < ((roundHalfEven (x * 100) : ℤ) : ℚ) := by linarith
    have hi : (99 : ℤ) < roundHalfEven (x * 100) := by exact_mod_cast hq
    omega
  have hz2 : roundHalfEven (x * 100) ≤ (500 : ℤ) := by
    have hq : ((roundHalfEven (x * 100) : ℤ) : ℚ) < 501 := by linarith
    have hi : roundHalfEven (x * 100) < (501 : ℤ) := by exact_mod_cast hq
    omega
  have a1 : (100 : ℚ) ≤ ((roundHalfEven (x * 100) : ℤ) : ℚ) := by exact_mod_cast hz1
  have a2 : ((roundHalfEven (x * 100) : ℤ) : ℚ) ≤ 500 := by exact_mod_cast hz2
  unfold round2
  constructor <;> linarith

lemma pyMean_two (x y : ℚ) : pyMean [x, y] = (x + y) / 2 := by
  simp [pyMean]

lemma pyMean_three (x y z : ℚ) : pyMean [x, y, z] = (x + y + z) / 3 := by
  simp [pyMean]
  ring

lemma calc_scores_complete (answers : String → Option ℤ)
    (a1 a2 a3 a4 a5 a6 a7 a8 a9 a10 : ℤ)
    (h1 : answers "Q1" = some a1) (h2 : answers "Q2" = some a2)
    (h3 : answers "Q3" = some a3) (h4 : answers "Q4" = some a4)
    (h5 : answers "Q5" = some a5) (h6 : answers "Q6" = some a6)
    (h7 : answers "Q7" = some a7) (h8 : answers "Q8" = some a8)
    (h9 : answers "Q9" = some a9) (h10 : answers "Q10" = some a10) :
    calc_scores answers = Except.ok
      { psychological := round2 (((a1 : ℚ) + (a2 : ℚ)) / 2)
        identity      := round2 (((a3 : ℚ) + (a4 : ℚ)) / 2)
        workstyle     := round2 (((a5 : ℚ) + (a6 : ℚ) + (a7 : ℚ)) / 3)
        constraint    := round2 ((a8 : ℚ))
        action        := round2 (((a9 : ℚ) + (a10 : ℚ)) / 2) } := by
  simp [calc_scores, withAnswer, h1, h2, h3, h4, h5, h6, h7, h8, h9, h10,
    pyMean_two, pyMean_three]

lemma ws_round_iff (k : ℤ) (hk3 : 3 ≤ k) (hk15 : k ≤ 15) :
    ((round2 ((k : ℚ)/3) ≥ 4.0) ↔ ((k : ℚ)/3 ≥ 4.0)) ∧
    ((3.0 ≤ round2 ((k : ℚ)/3)) ↔ (3.0 ≤ (k : ℚ)/3)) ∧
    ((round2 ((k : ℚ)/3) ≤ 4.2) ↔ ((k : ℚ)/3 ≤ 4.2)) ∧
    ((round2 ((k : ℚ)/3) ≥ 3.5) ↔ ((k : ℚ)/3 ≥ 3.5)) := by
  interval_cases k <;>
    refine ⟨?_, ?_, ?_, ?_⟩ <;>
    norm_num [round2, roundHalfEven]

lemma decide_type_congr (s t : Scores)
    (hps : s.psychological = t.psychological)
    (hid : s.identity = t.identity)
    (hco : s.constraint = t.constraint)
    (hac : s.action = t.action)
    (hw1 : (s.workstyle ≥ 4.0) ↔ (t.workstyle ≥ 4.0))
    (hw2 : (3.0 ≤ s.workstyle) ↔ (3.0 ≤ t.workstyle))
    (hw3 : (s.workstyle ≤ 4.2) ↔ (t.workstyle ≤ 4.2))
    (hw4 : (s.workstyle ≥ 3.5) ↔ (t.workstyle ≥ 3.5)) :
    decide_type s = decide_type t := by
  have e1 : (s.workstyle ≥ 4.0 ∧ s.psychological ≥ 3.6 ∧ s.constraint ≥ 3.0 ∧ s.action ≥ 3.6) ↔
      (t.workstyle ≥ 4.0 ∧ t.psychological ≥ 3.6 ∧ t.constraint ≥ 3.0 ∧ t.action ≥ 3.6) := by
    rw [hps, hco, hac]; exact and_congr hw1 Iff.rfl
  have e2 : (s.psychological ≥ 3.2 ∧ s.constraint ≥ 3.0 ∧ 3.0 ≤ s.workstyle ∧ s.workstyle ≤ 4.2) ↔
      (t.psychological ≥ 3.2 ∧ t.constraint ≥ 3.0 ∧ 3.0 ≤ t.workstyle ∧ t.workstyle ≤ 4.2) := by
    rw [hps, hco]; exact and_congr Iff.rfl (and_congr Iff.rfl (and_congr hw2 hw3))
  have e3 : (s.identity ≥ 4.0 ∧ s.workstyle ≥ 3.5) ↔
      (t.identity ≥ 4.0 ∧ t.workstyle ≥ 3.5) := by
    rw [hid]; exact and_congr Iff.rfl hw4
  unfold decide_type
  by_cases c1 : t.workstyle ≥ 4.0 ∧ t.psychological ≥ 3.6 ∧ t.constraint ≥ 3.0 ∧ t.action ≥ 3.6
  · rw [if_pos c1, if_pos (e1.mpr c1)]
  · rw [if_neg c1, if_neg (fun h => c1 (e1.mp h))]
    by_cases c2 : t.psychological ≥ 3.2 ∧ t.constraint ≥ 3.0 ∧ 3.0 ≤ t.workstyle ∧ t.workstyle ≤ 4.2
    · rw [if_pos c2, if_pos (e2.mpr c2)]
    · rw [if_neg c2, if_neg (fun h => c2 (e2.mp h))]
      by_cases c3 : t.identity ≥ 4.0 ∧ t.workstyle ≥ 3.5
      · rw [if_pos c3, if_pos (e3.mpr c3)]
      · rw [if_neg c3, if_neg (fun h => c3 (e3.mp h))]

lemma calc_scores_first_missing (answers : String → Option ℤ) (q : String)
    (h : QUESTION_IDS.find? (fun r => (answers r).isNone) = some q) :
    answers q = none ∧ calc_scores answers = Except.error q := by
  unfold QUESTION_IDS at h
  cases e1 : answers "Q1" with
  | none =>
    rw [List.find?_cons_of_pos _ (by simp [e1])] at h
    obtain rfl : "Q1" = q := by injection h
    exact ⟨e1, by simp [calc_scores, withAnswer, e1]⟩
  | some v1 =>
  rw [List.find?_cons_of_neg _ (by simp [e1])] at h
  cases e2 : answers "Q2" with
  | none =>
    rw [List.find?_cons_of_pos _ (by simp [e2])] at h
    obtain rfl : "Q2" = q := by injection h
    exact ⟨e2, by simp [calc_scores, withAnswer, e1, e2]⟩
  | some v2 =>
  rw [List.find?_cons_of_neg _ (by simp [e2])] at h
  cases e3 : answers "Q3" with
  | none =>
    rw [List.find?_cons_of_pos _ (by simp [e3])] at h
    obtain rfl : "Q3" = q := by injection h
    exact ⟨e3, by simp [calc_scores, withAnswer, e1, e2, e3]⟩
  | some v3 =>
  rw [List.find?_cons_of_neg _ (by simp [e3])] at h
  cases e4 : answers "Q4" with
  | none =>
    rw [List.find?_cons_of_pos _ (by simp [e4])] at h
    obtain rfl : "Q4" = q := by injection h
    exact ⟨e4, by simp [calc_scores, withAnswer, e1, e2, e3, e4]⟩
  | some v4 =>
  rw [List.find?_cons_of_neg _ (by simp [e4])] at h
  cases e5 : answers "Q5" with
  | none =>
    rw [List.find?_cons_of_pos _ (by simp [e5])] at h
    obtain rfl : "Q5" = q := by injection h
    exact ⟨e5, by simp [calc_scores, withAnswer, e1, e2, e3, e4, e5]⟩
  | some v5 =>
  rw [List.find?_cons_of_neg _ (by simp [e5])] at h
  cases e6 : answers "Q6" with
  | none =>
    rw [List.find?_cons_of_pos _ (by simp [e6])] at h
    obtain rfl : "Q6" = q := by injection h
    exact ⟨e6, by simp [calc_scores, withAnswer, e1, e2, e3, e4, e5, e6]⟩
  | some v6 =>
  rw [List.find?_cons_of_neg _ (by simp [e6])] at h
  cases e7 : answers "Q7" with
  | none =>
    rw [List.find?_cons_of_pos _ (by simp [e7])] at h
    obtain rfl : "Q7" = q := by injection h
    exact ⟨e7, by simp [calc_scores, withAnswer, e1, e2, e3, e4, e5, e6, e7]⟩
  | some v7 =>
  rw [List.find?_cons_of_neg _ (by simp [e7])] at h
  cases e8 : answers "Q8" with
  | none =>
    rw [List.find?_cons_of_pos _ (by simp [e8])] at h
    obtain rfl : "Q8" = q := by injection h
    exact ⟨e8, by simp [calc_scores, withAnswer, e1, e2, e3, e4, e5, e6, e7, e8]⟩
  | some v8 =>
  rw [List.find?_cons_of_neg _ (by simp [e8])] at h
  cases e9 : answers "Q9" with
  | none =>
    rw [List.find?_cons_of_pos _ (by simp [e9])] at h
    obtain rfl : "Q9" = q := by injection h
    exact ⟨e9, by simp [calc_scores, withAnswer, e1, e2, e3, e4, e5, e6, e7, e8, e9]⟩
  | some v9 =>
  rw [List.find?_cons_of_neg _ (by simp [e9])] at h
  cases e10 : answers "Q10" with
  | none =>
    rw [List.find?_cons_of_pos _ (by simp [e10])] at h
    obtain rfl : "Q10" = q := by injection h
    exact ⟨e10, by simp [calc_scores, withAnswer, e1, e2, e3, e4, e5, e6, e7, e8, e9, e10]⟩
  | some v10 =>
  rw [List.find?_cons_of_neg _ (by simp [e10])] at h
  simp [List.find?] at h

/-! ### Claim theorems -/

/-- Claim C1: classification rules are evaluated in a fixed priority order with
first-match-wins: `decide_type` returns "I" whenever the I-rule holds (even if
the P or S predicates also hold); otherwise "P" whenever the P-rule holds;
otherwise "S" whenever the S-rule holds; otherwise the catch-all "R".  This is
exactly the spec-side first-match evaluation `decide_type_spec`. -/
theorem decide_type_priority_order (s : Scores) :
    decide_type s = decide_type_spec s := rfl

/-- Claim C2: classification is total over the valid score range and returns
exactly one element of the closed set {"S", "R", "P", "I"}; when no rule
matches, the designated default "R" is returned (second conjunct: either the
result is "R" or some rule matched). -/
theorem decide_type_total (s : Scores) (hv : validScores s) :
    (decide_type s = "S" ∨ decide_type s = "R" ∨ decide_type s = "P" ∨
      decide_type s = "I") ∧
    (decide_type s = "R" ∨ ruleI s ∨ ruleP s ∨ ruleS s) := by
  constructor
  · unfold decide_type
    split_ifs
    · exact Or.inr (Or.inr (Or.inr rfl))
    · exact Or.inr (Or.inr (Or.inl rfl))
    · exact Or.inl rfl
    · exact Or.inr (Or.inl rfl)
  · by_cases hI : ruleI s
    · exact Or.inr (Or.inl hI)
    by_cases hP : ruleP s
    · exact Or.inr (Or.inr (Or.inl hP))
    by_cases hS : ruleS s
    · exact Or.inr (Or.inr (Or.inr hS))
    left
    unfold ruleI at hI
    unfold ruleP at hP
    unfold ruleS at hS
    unfold decide_type
    rw [if_neg hI, if_neg hP, if_neg hS]

/-- Witness for C2 at the all-neutral score tuple (3, 3, 3, 3, 3). -/
theorem decide_type_total_witness :
    validScores ⟨3, 3, 3, 3, 3⟩ ∧
    ((decide_type ⟨3, 3, 3, 3, 3⟩ = "S" ∨ decide_type ⟨3, 3, 3, 3, 3⟩ = "R" ∨
        decide_type ⟨3, 3, 3, 3, 3⟩ = "P" ∨ decide_type ⟨3, 3, 3, 3, 3⟩ = "I") ∧
      (decide_type ⟨3, 3, 3, 3, 3⟩ = "R" ∨ ruleI ⟨3, 3, 3, 3, 3⟩ ∨
        ruleP ⟨3, 3, 3, 3, 3⟩ ∨ ruleS ⟨3, 3, 3, 3, 3⟩)) := by
  have hv : validScores ⟨3, 3, 3, 3, 3⟩ := by norm_num [validScores]
  exact ⟨hv, decide_type_total ⟨3, 3, 3, 3, 3⟩ hv⟩

/-- Claim C5: when a question required by an axis is absent from the answer
set, scoring fails fast with an error carrying a missing question id (the
KeyError of the first missing dict lookup) and never returns a score dict. -/
theorem calc_scores_missing_answer (answers : String → Option ℤ) (q : String)
    (hq : q ∈ QUESTION_IDS) (hmiss : answers q = none) :
    answers (firstMissingIn answers) = none ∧
    calc_scores answers = Except.error (firstMissingIn answers) := by
  have hsome : (QUESTION_IDS.find? (fun r => (answers r).isNone)).isSome := by
    rw [List.find?_isSome]
    exact ⟨q, hq, by simp [hmiss]⟩
  obtain ⟨r, hr⟩ := Option.isSome_iff_exists.mp hsome
  have hfm : firstMissingIn answers = r := by
    unfold firstMissingIn
    rw [hr]
    rfl
  rw [hfm]
  exact calc_scores_first_missing answers r hr

/-- Witness for C5: the answer set missing exactly Q10 makes `calc_scores`
fail with the error naming the missing question. -/
theorem calc_scores_missing_answer_witness :
    oneMissing (firstMissingIn oneMissing) = none ∧
    calc_scores oneMissing = Except.error (firstMissingIn oneMissing) :=
  calc_scores_missing_answer oneMissing "Q10" (by simp [QUESTION_IDS]) rfl

/-- Counterexample to C6: the answer set `twoMissing` is missing both Q1 and
Q10, yet `calc_scores` fails with an error naming only "Q1"; the other missing
question "Q10" is not reported, so the error does not enumerate every missing
question. -/
theorem calc_scores_not_enumerating :
    calc_scores twoMissing = Except.error "Q1" ∧
    twoMissing "Q10" = none ∧ "Q1" ≠ "Q10" :=
  ⟨rfl, rfl, by decide⟩

/-- Claim C6 (amended): validation of a raw answer set fails with an error
identifying only the FIRST missing question in the fixed evaluation order
Q1, ..., Q10, not an enumeration of all of them. -/
theorem calc_scores_first_missing_only (answers : String → Option ℤ) (q : String)
    (h : QUESTION_IDS.find? (fun r => (answers r).isNone) = some q) :
    answers q = none ∧ calc_scores answers = Except.error q :=
  calc_scores_first_missing answers q h

/-- Witness for the amended C6: with Q1 and Q10 both missing, the first
missing question Q1 is the one the error names. -/
theorem calc_scores_first_missing_only_witness :
    twoMissing "Q1" = none ∧ calc_scores twoMissing = Except.error "Q1" :=
  calc_scores_first_missing_only twoMissing "Q1" rfl

/-- Claim C9: determinism and statelessness — `calc_scores` and `decide_type`
are pure functions of their arguments alone, so two runs on (extensionally)
equal inputs always agree. -/
theorem engine_deterministic :
    (∀ f g : String → Option ℤ, (∀ q, f q = g q) → calc_scores f = calc_scores g) ∧
    (∀ s t : Scores, s = t → decide_type s = decide_type t) := by
  constructor
  · intro f g h
    rw [funext h]
  · intro s t h
    rw [h]

/-- Witness for C9: two runs on the neutral answer set agree. -/
theorem engine_deterministic_witness :
    calc_scores answersAll3 = calc_scores answersAll3 ∧
    decide_type ⟨3, 3, 3, 3, 3⟩ = decide_type ⟨3, 3, 3, 3, 3⟩ :=
  ⟨engine_deterministic.1 answersAll3 answersAll3 (fun _ => rfl),
   engine_deterministic.2 ⟨3, 3, 3, 3, 3⟩ ⟨3, 3, 3, 3, 3⟩ rfl⟩

/-- Claim C7: the label mapper is total over [1, 5] and lower-bound-inclusive:
`soft_label` agrees with the first band of the descending threshold table
(4.5, 3.5, 2.5, 1.5, catch-all) whose lower bound is ≤ the score, and a score
of exactly 4.5 receives the label of the topmost band. -/
theorem soft_label_first_band (s : ℚ) (h1 : 1 ≤ s) (h5 : s ≤ 5) :
    soft_label s = firstBand s ∧
    soft_label 4.5 = "いま大切にしたい姿が、かなりはっきり見えている状態です。" := by
  constructor
  · by_cases c1 : s ≥ 4.5 <;> by_cases c2 : s ≥ 3.5 <;>
      by_cases c3 : s ≥ 2.5 <;> by_cases c4 : s ≥ 1.5 <;>
      simp [soft_label, firstBand, labelTable, bottomLabel, List.find?,
        c1, c2, c3, c4]
  · norm_num [soft_label]

/-- Witness for C7 at the boundary score 4.5. -/
theorem soft_label_first_band_witness :
    soft_label 4.5 = firstBand 4.5 ∧
    soft_label 4.5 = "いま大切にしたい姿が、かなりはっきり見えている状態です。" :=
  soft_label_first_band 4.5 (by norm_num) (by norm_num)

/-- Claim C3: for every complete answer set with values in 1..5,
`calc_scores` returns the per-axis arithmetic means — psychological =
mean(Q1, Q2), identity = mean(Q3, Q4), workstyle = mean(Q5, Q6, Q7),
constraint = Q8, action = mean(Q9, Q10) — each rounded to 2 decimal places,
and each resulting axis score lies within the 1.0–5.0 bounds of the scale. -/
theorem calc_scores_axis_means (answers : String → Option ℤ)
    (a1 a2 a3 a4 a5 a6 a7 a8 a9 a10 : ℤ)
    (h1 : answers "Q1" = some a1) (h2 : answers "Q2" = some a2)
    (h3 : answers "Q3" = some a3) (h4 : answers "Q4" = some a4)
    (h5 : answers "Q5" = some a5) (h6 : answers "Q6" = some a6)
    (h7 : answers "Q7" = some a7) (h8 : answers "Q8" = some a8)
    (h9 : answers "Q9" = some a9) (h10 : answers "Q10" = some a10)
    (r1 : 1 ≤ a1 ∧ a1 ≤ 5) (r2 : 1 ≤ a2 ∧ a2 ≤ 5) (r3 : 1 ≤ a3 ∧ a3 ≤ 5)
    (r4 : 1 ≤ a4 ∧ a4 ≤ 5) (r5 : 1 ≤ a5 ∧ a5 ≤ 5) (r6 : 1 ≤ a6 ∧ a6 ≤ 5)
    (r7 : 1 ≤ a7 ∧ a7 ≤ 5) (r8 : 1 ≤ a8 ∧ a8 ≤ 5) (r9 : 1 ≤ a9 ∧ a9 ≤ 5)
    (r10 : 1 ≤ a10 ∧ a10 ≤ 5) :
    calc_scores answers = Except.ok
      ⟨round2 (((a1 : ℚ) + (a2 : ℚ)) / 2), round2 (((a3 : ℚ) + (a4 : ℚ)) / 2),
       round2 (((a5 : ℚ) + (a6 : ℚ) + (a7 : ℚ)) / 3), round2 ((a8 : ℚ)),
       round2 (((a9 : ℚ) + (a10 : ℚ)) / 2)⟩ ∧
    (1 ≤ round2 (((a1 : ℚ) + (a2 : ℚ)) / 2) ∧
      round2 (((a1 : ℚ) + (a2 : ℚ)) / 2) ≤ 5) ∧
    (1 ≤ round2 (((a3 : ℚ) + (a4 : ℚ)) / 2) ∧
      round2 (((a3 : ℚ) + (a4 : ℚ)) / 2) ≤ 5) ∧
    (1 ≤ round2 (((a5 : ℚ) + (a6 : ℚ) + (a7 : ℚ)) / 3) ∧
      round2 (((a5 : ℚ) + (a6 : ℚ) + (a7 : ℚ)) / 3) ≤ 5) ∧
    (1 ≤ round2 ((a8 : ℚ)) ∧ round2 ((a8 : ℚ)) ≤ 5) ∧
    (1 ≤ round2 (((a9 : ℚ) + (a10 : ℚ)) / 2) ∧
      round2 (((a9 : ℚ) + (a10 : ℚ)) / 2) ≤ 5) := by
  have ql1 : (1 : ℚ) ≤ (a1 : ℚ) := by exact_mod_cast r1.1
  have qu1 : (a1 : ℚ) ≤ 5 := by exact_mod_cast r1.2
  have ql2 : (1 : ℚ) ≤ (a2 : ℚ) := by exact_mod_cast r2.1
  have qu2 : (a2 : ℚ) ≤ 5 := by exact_mod_cast r2.2
  have ql3 : (1 : ℚ) ≤ (a3 : ℚ) := by exact_mod_cast r3.1
  have qu3 : (a3 : ℚ) ≤ 5 := by exact_mod_cast r3.2
  have ql4 : (1 : ℚ) ≤ (a4 : ℚ) := by exact_mod_cast r4.1
  have qu4 : (a4 : ℚ) ≤ 5 := by exact_mod_cast r4.2
  have ql5 : (1 : ℚ) ≤ (a5 : ℚ) := by exact_mod_cast r5.1
  have qu5 : (a5 : ℚ) ≤ 5 := by exact_mod_cast r5.2
  have ql6 : (1 : ℚ) ≤ (a6 : ℚ) := by exact_mod_cast r6.1
  have qu6 : (a6 : ℚ) ≤ 5 := by exact_mod_cast r6.2
  have ql7 : (1 : ℚ) ≤ (a7 : ℚ) := by exact_mod_cast r7.1
  have qu7 : (a7 : ℚ) ≤ 5 := by exact_mod_cast r7.2
  have ql8 : (1 : ℚ) ≤ (a8 : ℚ) := by exact_mod_cast r8.1
  have qu8 : (a8 : ℚ) ≤ 5 := by exact_mod_cast r8.2
  have ql9 : (1 : ℚ) ≤ (a9 : ℚ) := by exact_mod_cast r9.1
  have qu9 : (a9 : ℚ) ≤ 5 := by exact_mod_cast r9.2
  have ql10 : (1 : ℚ) ≤ (a10 : ℚ) := by exact_mod_cast r10.1
  have qu10 : (a10 : ℚ) ≤ 5 := by exact_mod_cast r10.2
  exact ⟨calc_scores_complete answers a1 a2 a3 a4 a5 a6 a7 a8 a9 a10
      h1 h2 h3 h4 h5 h6 h7 h8 h9 h10,
    round2_bounds _ (by linarith) (by linarith),
    round2_bounds _ (by linarith) (by linarith),
    round2_bounds _ (by linarith) (by linarith),
    round2_bounds _ ql8 qu8,
    round2_bounds _ (by linarith) (by linarith)⟩

/-- Witness for C3 at the all-neutral answer set (every question 3). -/
theorem calc_scores_axis_means_witness :
    calc_scores answersAll3 = Except.ok
      ⟨round2 ((((3 : ℤ) : ℚ) + ((3 : ℤ) : ℚ)) / 2),
       round2 ((((3 : ℤ) : ℚ) + ((3 : ℤ) : ℚ)) / 2),
       round2 ((((3 : ℤ) : ℚ) + ((3 : ℤ) : ℚ) + ((3 : ℤ) : ℚ)) / 3),
       round2 (((3 : ℤ) : ℚ)),
       round2 ((((3 : ℤ) : ℚ) + ((3 : ℤ) : ℚ)) / 2)⟩ ∧
    (1 ≤ round2 ((((3 : ℤ) : ℚ) + ((3 : ℤ) : ℚ)) / 2) ∧
      round2 ((((3 : ℤ) : ℚ) + ((3 : ℤ) : ℚ)) / 2) ≤ 5) ∧
    (1 ≤ round2 ((((3 : ℤ) : ℚ) + ((3 : ℤ) : ℚ)) / 2) ∧
      round2 ((((3 : ℤ) : ℚ) + ((3 : ℤ) : ℚ)) / 2) ≤ 5) ∧
    (1 ≤ round2 ((((3 : ℤ) : ℚ) + ((3 : ℤ) : ℚ) + ((3 : ℤ) : ℚ)) / 3) ∧
      round2 ((((3 : ℤ) : ℚ) + ((3 : ℤ) : ℚ) + ((3 : ℤ) : ℚ)) / 3) ≤ 5) ∧
    (1 ≤ round2 (((3 : ℤ) : ℚ)) ∧ round2 (((3 : ℤ) : ℚ)) ≤ 5) ∧
    (1 ≤ round2 ((((3 : ℤ) : ℚ) + ((3 : ℤ) : ℚ)) / 2) ∧
      round2 ((((3 : ℤ) : ℚ) + ((3 : ℤ) : ℚ)) / 2) ≤ 5) :=
  calc_scores_axis_means answersAll3 3 3 3 3 3 3 3 3 3 3
    rfl rfl rfl rfl rfl rfl rfl rfl rfl rfl
    (by decide) (by decide) (by decide) (by decide) (by decide)
    (by decide) (by decide) (by decide) (by decide) (by decide)

/-- Claim C4: rounding to 2 decimal places does not affect classification —
for every complete answer set with values in 1..5, `decide_type` on the
rounded axis scores produced by `calc_scores` equals `decide_type` on the
exact (unrounded) arithmetic means. -/
theorem classification_rounding_invariant (answers : String → Option ℤ)
    (a1 a2 a3 a4 a5 a6 a7 a8 a9 a10 : ℤ)
    (h1 : answers "Q1" = some a1) (h2 : answers "Q2" = some a2)
    (h3 : answers "Q3" = some a3) (h4 : answers "Q4" = some a4)
    (h5 : answers "Q5" = some a5) (h6 : answers "Q6" = some a6)
    (h7 : answers "Q7" = some a7) (h8 : answers "Q8" = some a8)
    (h9 : answers "Q9" = some a9) (h10 : answers "Q10" = some a10)
    (r1 : 1 ≤ a1 ∧ a1 ≤ 5) (r2 : 1 ≤ a2 ∧ a2 ≤ 5) (r3 : 1 ≤ a3 ∧ a3 ≤ 5)
    (r4 : 1 ≤ a4 ∧ a4 ≤ 5) (r5 : 1 ≤ a5 ∧ a5 ≤ 5) (r6 : 1 ≤ a6 ∧ a6 ≤ 5)
    (r7 : 1 ≤ a7 ∧ a7 ≤ 5) (r8 : 1 ≤ a8 ∧ a8 ≤ 5) (r9 : 1 ≤ a9 ∧ a9 ≤ 5)
    (r10 : 1 ≤ a10 ∧ a10 ≤ 5) :
    calc_scores answers = Except.ok
      ⟨round2 (((a1 : ℚ) + (a2 : ℚ)) / 2), round2 (((a3 : ℚ) + (a4 : ℚ)) / 2),
       round2 (((a5 : ℚ) + (a6 : ℚ) + (a7 : ℚ)) / 3), round2 ((a8 : ℚ)),
       round2 (((a9 : ℚ) + (a10 : ℚ)) / 2)⟩ ∧
    decide_type
      ⟨round2 (((a1 : ℚ) + (a2 : ℚ)) / 2), round2 (((a3 : ℚ) + (a4 : ℚ)) / 2),
       round2 (((a5 : ℚ) + (a6 : ℚ) + (a7 : ℚ)) / 3), round2 ((a8 : ℚ)),
       round2 (((a9 : ℚ) + (a10 : ℚ)) / 2)⟩ =
    decide_type
      ⟨((a1 : ℚ) + (a2 : ℚ)) / 2, ((a3 : ℚ) + (a4 : ℚ)) / 2,
       ((a5 : ℚ) + (a6 : ℚ) + (a7 : ℚ)) / 3, (a8 : ℚ),
       ((a9 : ℚ) + (a10 : ℚ)) / 2⟩ := by
  refine ⟨calc_scores_complete answers a1 a2 a3 a4 a5 a6 a7 a8 a9 a10
      h1 h2 h3 h4 h5 h6 h7 h8 h9 h10, ?_⟩
  have p1 : round2 (((a1 : ℚ) + (a2 : ℚ)) / 2) = ((a1 : ℚ) + (a2 : ℚ)) / 2 :=
    round2_exact _ (50 * (a1 + a2)) (by push_cast; ring)
  have p2 : round2 (((a3 : ℚ) + (a4 : ℚ)) / 2) = ((a3 : ℚ) + (a4 : ℚ)) / 2 :=
    round2_exact _ (50 * (a3 + a4)) (by push_cast; ring)
  have p4 : round2 ((a8 : ℚ)) = (a8 : ℚ) :=
    round2_exact _ (100 * a8) (by push_cast; ring)
  have p5 : round2 (((a9 : ℚ) + (a10 : ℚ)) / 2) = ((a9 : ℚ) + (a10 : ℚ)) / 2 :=
    round2_exact _ (50 * (a9 + a10)) (by push_cast; ring)
  have hc : ((a5 + a6 + a7 : ℤ) : ℚ) / 3 = ((a5 : ℚ) + (a6 : ℚ) + (a7 : ℚ)) / 3 := by
    push_cast
    ring
  obtain ⟨w1, w2, w3, w4⟩ := ws_round_iff (a5 + a6 + a7) (by omega) (by omega)
  rw [hc] at w1 w2 w3 w4
  exact decide_type_congr _ _ p1 p2 p4 p5 w1 w2 w3 w4

/-- Witness for C4 at the answer set with Q7 = 3 and all other questions 4:
the workstyle mean 11/3 has a nontrivial rounding (3.67), and the classified
type is unchanged by it. -/
theorem classification_rounding_invariant_witness :
    calc_scores answersMixed = Except.ok
      ⟨round2 ((((4 : ℤ) : ℚ) + ((4 : ℤ) : ℚ)) / 2),
       round2 ((((4 : ℤ) : ℚ) + ((4 : ℤ) : ℚ)) / 2),
       round2 ((((4 : ℤ) : ℚ) + ((4 : ℤ) : ℚ) + ((3 : ℤ) : ℚ)) / 3),
       round2 (((4 : ℤ) : ℚ)),
       round2 ((((4 : ℤ) : ℚ) + ((4 : ℤ) : ℚ)) / 2)⟩ ∧
    decide_type
      ⟨round2 ((((4 : ℤ) : ℚ) + ((4 : ℤ) : ℚ)) / 2),
       round2 ((((4 : ℤ) : ℚ) + ((4 : ℤ) : ℚ)) / 2),
       round2 ((((4 : ℤ) : ℚ) + ((4 : ℤ) : ℚ) + ((3 : ℤ) : ℚ)) / 3),
       round2 (((4 : ℤ) : ℚ)),
       round2 ((((4 : ℤ) : ℚ) + ((4 : ℤ) : ℚ)) / 2)⟩ =
    decide_type
      ⟨(((4 : ℤ) : ℚ) + ((4 : ℤ) : ℚ)) / 2, (((4 : ℤ) : ℚ) + ((4 : ℤ) : ℚ)) / 2,
       (((4 : ℤ) : ℚ) + ((4 : ℤ) : ℚ) + ((3 : ℤ) : ℚ)) / 3, ((4 : ℤ) : ℚ),
       (((4 : ℤ) : ℚ) + ((4 : ℤ) : ℚ)) / 2⟩ :=
  classification_rounding_invariant answersMixed 4 4 4 4 4 4 3 4 4 4
    rfl rfl rfl rfl rfl rfl rfl rfl rfl rfl
    (by decide) (by decide) (by decide) (by decide) (by decide)
    (by decide) (by decide) (by decide) (by decide) (by decide)

/-- Claim C8: rounding bound — each rounded axis score differs from the exact
arithmetic mean of its contributing answers by at most 0.005. -/
theorem calc_scores_rounding_bound (answers : String → Option ℤ)
    (a1 a2 a3 a4 a5 a6 a7 a8 a9 a10 : ℤ)
    (h1 : answers "Q1" = some a1) (h2 : answers "Q2" = some a2)
    (h3 : answers "Q3" = some a3) (h4 : answers "Q4" = some a4)
    (h5 : answers "Q5" = some a5) (h6 : answers "Q6" = some a6)
    (h7 : answers "Q7" = some a7) (h8 : answers "Q8" = some a8)
    (h9 : answers "Q9" = some a9) (h10 : answers "Q10" = some a10)
    (r1 : 1 ≤ a1 ∧ a1 ≤ 5) (r2 : 1 ≤ a2 ∧ a2 ≤ 5) (r3 : 1 ≤ a3 ∧ a3 ≤ 5)
    (r4 : 1 ≤ a4 ∧ a4 ≤ 5) (r5 : 1 ≤ a5 ∧ a5 ≤ 5) (r6 : 1 ≤ a6 ∧ a6 ≤ 5)
    (r7 : 1 ≤ a7 ∧ a7 ≤ 5) (r8 : 1 ≤ a8 ∧ a8 ≤ 5) (r9 : 1 ≤ a9 ∧ a9 ≤ 5)
    (r10 : 1 ≤ a10 ∧ a10 ≤ 5) :
    calc_scores answers = Except.ok
      ⟨round2 (((a1 : ℚ) + (a2 : ℚ)) / 2), round2 (((a3 : ℚ) + (a4 : ℚ)) / 2),
       round2 (((a5 : ℚ) + (a6 : ℚ) + (a7 : ℚ)) / 3), round2 ((a8 : ℚ)),
       round2 (((a9 : ℚ) + (a10 : ℚ)) / 2)⟩ ∧
    |round2 (((a1 : ℚ) + (a2 : ℚ)) / 2) - ((a1 : ℚ) + (a2 : ℚ)) / 2| ≤ 0.005 ∧
    |round2 (((a3 : ℚ) + (a4 : ℚ)) / 2) - ((a3 : ℚ) + (a4 : ℚ)) / 2| ≤ 0.005 ∧
    |round2 (((a5 : ℚ) + (a6 : ℚ) + (a7 : ℚ)) / 3) -
      ((a5 : ℚ) + (a6 : ℚ) + (a7 : ℚ)) / 3| ≤ 0.005 ∧
    |round2 ((a8 : ℚ)) - (a8 : ℚ)| ≤ 0.005 ∧
    |round2 (((a9 : ℚ) + (a10 : ℚ)) / 2) - ((a9 : ℚ) + (a10 : ℚ)) / 2| ≤ 0.005 := by
  have e : (0.005 : ℚ) = 1/200 := by norm_num
  refine ⟨calc_scores_complete answers a1 a2 a3 a4 a5 a6 a7 a8 a9 a10
      h1 h2 h3 h4 h5 h6 h7 h8 h9 h10, ?_, ?_, ?_, ?_, ?_⟩ <;>
    rw [e] <;>
    exact round2_abs _

/-- Witness for C8 at the all-neutral answer set (every question 3). -/
theorem calc_scores_rounding_bound_witness :
    calc_scores answersAll3 = Except.ok
      ⟨round2 ((((3 : ℤ) : ℚ) + ((3 : ℤ) : ℚ)) / 2),
       round2 ((((3 : ℤ) : ℚ) + ((3 : ℤ) : ℚ)) / 2),
       round2 ((((3 : ℤ) : ℚ) + ((3 : ℤ) : ℚ) + ((3 : ℤ) : ℚ)) / 3),
       round2 (((3 : ℤ) : ℚ)),
       round2 ((((3 : ℤ) : ℚ) + ((3 : ℤ) : ℚ)) / 2)⟩ ∧
    |round2 ((((3 : ℤ) : ℚ) + ((3 : ℤ) : ℚ)) / 2) -
      (((3 : ℤ) : ℚ) + ((3 : ℤ) : ℚ)) / 2| ≤ 0.005 ∧
    |round2 ((((3 : ℤ) : ℚ) + ((3 : ℤ) : ℚ)) / 2) -
      (((3 : ℤ) : ℚ) + ((3 : ℤ) : ℚ)) / 2| ≤ 0.005 ∧
    |round2 ((((3 : ℤ) : ℚ) + ((3 : ℤ) : ℚ) + ((3 : ℤ) : ℚ)) / 3) -
      (((3 : ℤ) : ℚ) + ((3 : ℤ) : ℚ) + ((3 : ℤ) : ℚ)) / 3| ≤ 0.005 ∧
    |round2 (((3 : ℤ) : ℚ)) - ((3 : ℤ) : ℚ)| ≤ 0.005 ∧
    |round2 ((((3 : ℤ) : ℚ) + ((3 : ℤ) : ℚ)) / 2) -
      (((3 : ℤ) : ℚ) + ((3 : ℤ) : ℚ)) / 2| ≤ 0.005 :=
  calc_scores_rounding_bound answersAll3 3 3 3 3 3 3 3 3 3 3
    rfl rfl rfl rfl rfl rfl rfl rfl rfl rfl
    (by decide) (by decide) (by decide) (by decide) (by decide)
    (by decide) (by decide) (by decide) (by decide) (by decide)

/-- Claim C10: the core performs no option-membership or range validation —
for every answers mapping containing Q1..Q10 with arbitrary integer values
(including out-of-range values such as 0 or 7), `calc_scores` returns
normally with the rounded arithmetic means of those values rather than
raising any error. -/
theorem calc_scores_no_validation (answers : String → Option ℤ)
    (a1 a2 a3 a4 a5 a6 a7 a8 a9 a10 : ℤ)
    (h1 : answers "Q1" = some a1) (h2 : answers "Q2" = some a2)
    (h3 : answers "Q3" = some a3) (h4 : answers "Q4" = some a4)
    (h5 : answers "Q5" = some a5) (h6 : answers "Q6" = some a6)
    (h7 : answers "Q7" = some a7) (h8 : answers "Q8" = some a8)
    (h9 : answers "Q9" = some a9) (h10 : answers "Q10" = some a10) :
    calc_scores answers = Except.ok
      ⟨round2 (((a1 : ℚ) + (a2 : ℚ)) / 2), round2 (((a3 : ℚ) + (a4 : ℚ)) / 2),
       round2 (((a5 : ℚ) + (a6 : ℚ) + (a7 : ℚ)) / 3), round2 ((a8 : ℚ)),
       round2 (((a9 : ℚ) + (a10 : ℚ)) / 2)⟩ :=
  calc_scores_complete answers a1 a2 a3 a4 a5 a6 a7 a8 a9 a10
    h1 h2 h3 h4 h5 h6 h7 h8 h9 h10

/-- Witness for C10 at the all-7 answer set: `calc_scores` accepts the
out-of-range values and silently produces the axis score 7, outside the
1.0–5.0 range. -/
theorem calc_scores_no_validation_witness :
    calc_scores answersAll7 = Except.ok
      ⟨round2 ((((7 : ℤ) : ℚ) + ((7 : ℤ) : ℚ)) / 2),
       round2 ((((7 : ℤ) : ℚ) + ((7 : ℤ) : ℚ)) / 2),
       round2 ((((7 : ℤ) : ℚ) + ((7 : ℤ) : ℚ) + ((7 : ℤ) : ℚ)) / 3),
       round2 (((7 : ℤ) : ℚ)),
       round2 ((((7 : ℤ) : ℚ) + ((7 : ℤ) : ℚ)) / 2)⟩ ∧
    round2 ((((7 : ℤ) : ℚ) + ((7 : ℤ) : ℚ)) / 2) = 7 ∧
    ¬ (round2 ((((7 : ℤ) : ℚ) + ((7 : ℤ) : ℚ)) / 2) ≤ 5) := by
  refine ⟨calc_scores_no_validation answersAll7 7 7 7 7 7 7 7 7 7 7
      rfl rfl rfl rfl rfl rfl rfl rfl rfl rfl, ?_, ?_⟩ <;>
    norm_num [round2, roundHalfEven]
